import Mathlib

/-!
Shallow embedding of `src/DBConnect.py` (the `DBConnect` class: connection
dispatch, status probing, disconnection, and the `runSql` result
normalisation layer) together with theorems settling the specification
claims about it.

Modelling conventions:
* The native drivers (oracledb, pymssql, psycopg2, MySQLdb) are external
  collaborators; their observable behaviour for one call is passed in as
  explicit data (`OpenResult`, `CloseResult`, the per-backend cursor
  outcome types bundled in `ExecEnv`).
* Python exceptions that escape a method become `Except` errors; exceptions
  that the source catches are encoded as constructors of the outcome types
  and handled exactly where the source handles them.
* `logging.error` / `logging.exception` calls append the logged message to
  the `log` field of the state; `print` diagnostics are not tracked.
* Python dict construction (`dict(zip(ks, vs))`) is modelled by
  `dictOfZip`, which reproduces insertion-order semantics including the
  overwrite-on-duplicate-key behaviour.
-/

set_option autoImplicit false

namespace DBConnectModel

/-- A database cell value (backend-native scalar, abstracted). -/
inductive Value where
  | str : String → Value
  | int : Int → Value
  | null : Value
  deriving DecidableEq, Repr

/-- A normalized row: an insertion-ordered mapping from column name to value,
as produced by a Python dict. -/
abbrev Row := List (String × Value)

/-- The keys of a row, in insertion order. -/
def keysOf (r : Row) : List String := r.map Prod.fst

/-- Python `d[k] = v` on an insertion-ordered dict: an existing key keeps its
position and gets the new value; a new key is appended. -/
def dictInsert : Row → String → Value → Row
  | [], k, v => [(k, v)]
  | (k', v') :: rest, k, v =>
    if k' = k then (k', v) :: rest
    else (k', v') :: dictInsert rest k v

/-- Python `dict(zip(ks, vs))`: zip truncates to the shorter list, then the
pairs are inserted left to right. -/
def dictOfZip (ks : List String) (vs : List Value) : Row :=
  (ks.zip vs).foldl (fun d kv => dictInsert d kv.1 kv.2) []

/-- The single-row fallback `{'Row(s) affected': k}` used by every backend
branch of `runSql` for non-row-producing statements. -/
def affectedRow (k : Int) : Row := [("Row(s) affected", Value.int k)]

/-- The value ultimately returned by `runSql` (and stored in `lastResult`):
a list of rows, or — after the `one=True` reduction at line 321 — a single
row. -/
inductive RunVal where
  | rows : List Row → RunVal
  | single : Row → RunVal
  deriving DecidableEq, Repr

/-- Source lines 68-72: the `DBType` enum. -/
inductive DBType where
  | ORACLE
  | SQL_SERVER
  | POSTGRESQL
  | MYSQL
  deriving DecidableEq, Repr

/-- The `.value` strings of the `DBType` enum members. -/
def DBType.value : DBType → String
  | .ORACLE => "oracle"
  | .SQL_SERVER => "sqlserver"
  | .POSTGRESQL => "postgresql"
  | .MYSQL => "mysql"

/-- What the Oracle liveness probe `connection.is_healthy()` (line 201)
reports: healthy, unhealthy, or it raises `oracledb.DatabaseError`. -/
inductive OracleHealth where
  | healthy
  | unhealthy
  | raiseDbError : String → OracleHealth
  deriving DecidableEq, Repr

/-- What reading `connection._conn.connected` (line 210) yields for a
SQL Server handle: a boolean, or a raised `pymssql.InterfaceError`. -/
inductive MssqlConnState where
  | connected
  | notConnected
  | raiseInterfaceError
  deriving DecidableEq, Repr

/-- A native connection handle, tagged by backend, carrying exactly the
observable state the source inspects: Oracle `is_healthy()`, SQL Server
`_conn.connected`, PostgreSQL `closed`, MySQL `open`. -/
inductive NativeConn where
  | oracle : OracleHealth → NativeConn
  | mssql : MssqlConnState → NativeConn
  | pg : Bool → NativeConn
  | mysql : Nat → NativeConn
  deriving DecidableEq, Repr

/-- The driver-level effect of `connection.close()`: after a successful
close, every backend's probe reports the handle as not alive. -/
def closeConn : NativeConn → NativeConn
  | .oracle _ => .oracle .unhealthy
  | .mssql _ => .mssql .notConnected
  | .pg _ => .pg true
  | .mysql _ => .mysql 0

/-- The mutable state of a `DBConnect` object that the claims concern:
`connDetails['rdbms']` (a string compared against the enum values), the
connection name `self.name`, `self.connection`, `self.lastResult`, and the
messages passed to `logging.error` / `logging.exception`. -/
structure DB where
  rdbms : String
  name : String
  connection : Option NativeConn
  lastResult : Option RunVal
  log : List String
  deriving DecidableEq, Repr

/-- Outcome of the native driver `connect` call inside
`_oracleConnection` / `_sqlServerConnection` / `_pgConnection` /
`_mySqlConnection`: a fresh handle, or a raised backend `DatabaseError`
carrying a message. -/
inductive OpenResult where
  | ok
  | dbError : String → OpenResult
  deriving DecidableEq, Repr

/-- Outcome of the native `connection.close()` call inside `disconnect`:
success, or a raised backend `DatabaseError` carrying a message. -/
inductive CloseResult where
  | ok
  | dbError : String → CloseResult
  deriving DecidableEq, Repr

/-- Source lines 345-364, `_oracleConnection`: returns a fresh handle (a
freshly opened Oracle connection reports healthy), or catches the driver's
`DatabaseError`, logs it, prints, and falls off the end returning `None`.
Result: the stored handle and the logged messages. -/
def oracleConnection : OpenResult → Option NativeConn × List String
  | .ok => (some (.oracle .healthy), [])
  | .dbError m => (none, [m])

/-- Source lines 366-381, `_sqlServerConnection`: analogous to
`oracleConnection`; a fresh handle reports `_conn.connected` true. -/
def sqlServerConnection : OpenResult → Option NativeConn × List String
  | .ok => (some (.mssql .connected), [])
  | .dbError m => (none, [m])

/-- Source lines 383-398, `_pgConnection`: analogous; a fresh handle has
`closed == False`. -/
def pgConnection : OpenResult → Option NativeConn × List String
  | .ok => (some (.pg false), [])
  | .dbError m => (none, [m])

/-- Source lines 400-418, `_mySqlConnection`: analogous; a fresh handle has
`open == 1`. -/
def mySqlConnection : OpenResult → Option NativeConn × List String
  | .ok => (some (.mysql 1), [])
  | .dbError m => (none, [m])

/-- Source lines 126-158, `connect`: dispatches on `connDetails['rdbms']`,
assigns `self.connection` from the backend helper (which swallows the
driver's `DatabaseError` and yields `None`), and raises `ValueError` for an
unknown rdbms string. The outer `except DatabaseError` clauses never fire
because the helpers already catch that exception. -/
def connect (db : DB) (r : OpenResult) : Except String DB :=
  if db.rdbms = DBType.ORACLE.value then
    let p := oracleConnection r
    .ok { db with connection := p.1, log := db.log ++ p.2 }
  else if db.rdbms = DBType.SQL_SERVER.value then
    let p := sqlServerConnection r
    .ok { db with connection := p.1, log := db.log ++ p.2 }
  else if db.rdbms = DBType.POSTGRESQL.value then
    let p := pgConnection r
    .ok { db with connection := p.1, log := db.log ++ p.2 }
  else if db.rdbms = DBType.MYSQL.value then
    let p := mySqlConnection r
    .ok { db with connection := p.1, log := db.log ++ p.2 }
  else
    .error ("Unknown database type " ++ db.rdbms ++ " - cannot establish a connection!")

/-- Source lines 192-223, `status`: `False` when `self.connection is None`;
otherwise each backend probes its handle. Oracle catches the probe's
`DatabaseError` (logging it; that log entry is not tracked by this pure
function) and leaves `status` at its initial `False`;
SQL Server catches `InterfaceError` and sets `False`; PostgreSQL inspects
`closed`; MySQL tests `open == 1`. An rdbms string matching no branch
leaves the initial `False`. (A handle whose shape does not match the rdbms
string cannot arise: `connect` installs only matching handles; those match
arms return `false` as unreachable defaults.) -/
def status (db : DB) : Bool :=
  match db.connection with
  | none => false
  | some c =>
    if db.rdbms = DBType.ORACLE.value then
      match c with
      | .oracle .healthy => true
      | .oracle .unhealthy => false
      | .oracle (.raiseDbError _) => false
      | _ => false
    else if db.rdbms = DBType.SQL_SERVER.value then
      match c with
      | .mssql .connected => true
      | .mssql .notConnected => false
      | .mssql .raiseInterfaceError => false
      | _ => false
    else if db.rdbms = DBType.POSTGRESQL.value then
      match c with
      | .pg closed => !closed
      | _ => false
    else if db.rdbms = DBType.MYSQL.value then
      match c with
      | .mysql openFlag => openFlag == 1
      | _ => false
    else false

/-- Source lines 160-190, `disconnect`: a no-op when `status` is false;
otherwise each backend calls `self.connection.close()`, catching and
logging the backend `DatabaseError` on failure (the handle is then left
as-is, and it is never set to `None`). The `else: raise ValueError` arm is
unreachable because `status` is false for an unknown rdbms string. -/
def disconnect (db : DB) (cr : CloseResult) : DB :=
  if status db then
    if db.rdbms = DBType.ORACLE.value then
      match cr with
      | .ok => { db with connection := db.connection.map closeConn }
      | .dbError m => { db with log := db.log ++ [m] }
    else if db.rdbms = DBType.SQL_SERVER.value then
      match cr with
      | .ok => { db with connection := db.connection.map closeConn }
      | .dbError m => { db with log := db.log ++ [m] }
    else if db.rdbms = DBType.POSTGRESQL.value then
      match cr with
      | .ok => { db with connection := db.connection.map closeConn }
      | .dbError m => { db with log := db.log ++ [m] }
    else if db.rdbms = DBType.MYSQL.value then
      match cr with
      | .ok => { db with connection := db.connection.map closeConn }
      | .dbError m => { db with log := db.log ++ [m] }
    else db
  else db

/-- Outcome of the Oracle cursor work in lines 247-253: `cur.execute(sql)`
raises `oracledb.DatabaseError`, or succeeds yielding `cur.description`
(`None`, or the column names), the fetchable raw rows, and `cur.rowcount`. -/
inductive OracleOutcome where
  | execErr : String → OracleOutcome
  | execOk : Option (List String) → List (List Value) → Int → OracleOutcome
  deriving DecidableEq, Repr

/-- Outcome of the SQL Server cursor work in lines 265-270: a
`pymssql.DatabaseError` escaping to the outer handler (from `execute`, or a
non-operational fetch failure), or `fetchall()` returning dict rows, or
`fetchall()` raising `pymssql.OperationalError` (no result set), in which
case `cur.rowcount` is used. -/
inductive MssqlOutcome where
  | execErr : String → MssqlOutcome
  | fetchRows : List Row → MssqlOutcome
  | fetchOperationalError : Int → MssqlOutcome
  deriving DecidableEq, Repr

/-- Outcome of the PostgreSQL cursor work in lines 282-292: a raised
`psycopg2.DatabaseError`, or success yielding `cur.statusmessage`,
`cur.rowcount`, and the `RealDictCursor` rows that a fetch would return. -/
inductive PgOutcome where
  | execErr : String → PgOutcome
  | execOk : String → Int → List Row → PgOutcome
  deriving DecidableEq, Repr

/-- Outcome of the MySQL cursor work in lines 303-305: a raised
`MySQLdb.DatabaseError`, or success yielding the row count returned by
`cur.execute(sql)` and the `DictCursor` rows from `fetchall()`. -/
inductive MysqlOutcome where
  | execErr : String → MysqlOutcome
  | execOk : Int → List Row → MysqlOutcome
  deriving DecidableEq, Repr

/-- The behaviour of the external drivers for one `runSql` call: one cursor
outcome per backend (only the one matching the rdbms is consulted), plus
the outcomes of any reconnect and close performed during the call. -/
structure ExecEnv where
  oracleOut : OracleOutcome
  mssqlOut : MssqlOutcome
  pgOut : PgOutcome
  mysqlOut : MysqlOutcome
  openRes : OpenResult
  closeRes : CloseResult
  deriving DecidableEq, Repr

/-- An exception escaping `runSql`: the `ValueError` raised by `connect`
for an unknown rdbms; the `AttributeError` from calling `.cursor()` on a
`None` connection after a failed (swallowed) reconnect; the backend
`DatabaseError` re-raised at lines 260/277/299/316; or the `IndexError`
from `results[0]` on an empty list at line 321. -/
inductive RunError where
  | valueError : String → RunError
  | attributeError : RunError
  | dbError : String → RunError
  | indexError : RunError
  deriving DecidableEq, Repr

/-- Source lines 319-323: the `one=True` reduction `results = results[0]`
(an `IndexError` on an empty list, leaving `lastResult` unassigned), the
assignment `self.lastResult = results`, and the return. -/
def finishRun (one : Bool) (results : List Row) (db : DB) :
    Except RunError RunVal × DB :=
  if one then
    match results with
    | [] => (.error .indexError, db)
    | r :: _ => (.ok (.single r), { db with lastResult := some (.single r) })
  else
    (.ok (.rows results), { db with lastResult := some (.rows results) })

/-- Source lines 242-323: the per-backend body of `runSql`, run against a
state whose connection phase (lines 237-241) is already done. `commit`
selects `connection.commit()`, which has no observable effect in this
model. In each backend's `except` clause the original error is logged and a
new backend `DatabaseError` with a generic message naming the connection is
raised; no disconnect happens on that path. The final `else` at line 318
builds a `ValueError` but does not raise it (missing `raise`), so control
falls through to lines 319-323 with `results` still the empty list from
line 237. -/
def runSqlConnected (db : DB) (one commit kill : Bool) (env : ExecEnv) :
    Except RunError RunVal × DB :=
  if db.rdbms = DBType.ORACLE.value then
    match db.connection with
    | none => (.error .attributeError, db)
    | some _ =>
      match env.oracleOut with
      | .execErr m =>
        (.error (.dbError ("Unable to execute SQL statement using Oracle connection " ++ db.name)),
         { db with log := db.log ++ [m] })
      | .execOk desc rows rowcount =>
        let results : List Row :=
          match desc with
          | none => [affectedRow rowcount]
          | some columns => rows.map (fun args => dictOfZip columns args)
        let db2 := if kill then disconnect db env.closeRes else db
        finishRun one results db2
  else if db.rdbms = DBType.SQL_SERVER.value then
    match db.connection with
    | none => (.error .attributeError, db)
    | some _ =>
      match env.mssqlOut with
      | .execErr m =>
        (.error (.dbError ("Unable to execute SQL statement using SQL Server connection " ++ db.name)),
         { db with log := db.log ++ [m] })
      | .fetchRows rows =>
        let db2 := if kill then disconnect db env.closeRes else db
        finishRun one rows db2
      | .fetchOperationalError rowcount =>
        let db2 := if kill then disconnect db env.closeRes else db
        finishRun one [affectedRow rowcount] db2
  else if db.rdbms = DBType.POSTGRESQL.value then
    match db.connection with
    | none => (.error .attributeError, db)
    | some _ =>
      match env.pgOut with
      | .execErr m =>
        (.error (.dbError ("Unable to execute SQL statement using PostgreSQL connection " ++ db.name)),
         { db with log := db.log ++ [m] })
      | .execOk statusmessage rowcount rawResults =>
        let results : List Row :=
          if statusmessage.take 6 = "SELECT" ∧ rowcount > 0 then
            rawResults.map (fun r => dictOfZip (r.map Prod.fst) (r.map Prod.snd))
          else [affectedRow rowcount]
        let db2 := if kill then disconnect db env.closeRes else db
        finishRun one results db2
  else if db.rdbms = DBType.MYSQL.value then
    match db.connection with
    | none => (.error .attributeError, db)
    | some _ =>
      match env.mysqlOut with
      | .execErr m =>
        (.error (.dbError ("Unable to execute SQL statement using MySQL connection " ++ db.name)),
         { db with log := db.log ++ [m] })
      | .execOk rowCount rows =>
        let results : List Row := if rows.length = 0 then [affectedRow rowCount] else rows
        let db2 := if kill then disconnect db env.closeRes else db
        finishRun one results db2
  else
    finishRun one [] db

/-- Source lines 225-323, `runSql(sql, one, commit, kill)`: lines 237-241
call `status` (the first call's value is discarded) and reconnect via
`connect` when the second call reports false (propagating its `ValueError`
for an unknown rdbms); then the per-backend body runs. The SQL text itself
is abstracted: its effect at the driver is `env`. -/
def runSql (db : DB) (one commit kill : Bool) (env : ExecEnv) :
    Except RunError RunVal × DB :=
  match (if !(status db) then connect db env.openRes else .ok db) with
  | .error m => (.error (.valueError m), db)
  | .ok db1 => runSqlConnected db1 one commit kill env

/-- A live (alive-probing) handle for each backend, for building test
states. -/
def liveConn : DBType → NativeConn
  | .ORACLE => .oracle .healthy
  | .SQL_SERVER => .mssql .connected
  | .POSTGRESQL => .pg false
  | .MYSQL => .mysql 1

/-- A `DBConnect` state named `db1` for backend `t` holding connection
handle `c`. -/
def mkDB (t : DBType) (c : Option NativeConn) : DB :=
  { rdbms := t.value, name := "db1", connection := c, lastResult := none, log := [] }

/-- A connected state for backend `t`. -/
def liveDB (t : DBType) : DB := mkDB t (some (liveConn t))

/-- An environment whose unconsulted components are inert placeholders. -/
def baseEnv : ExecEnv :=
  { oracleOut := .execErr "unused", mssqlOut := .execErr "unused",
    pgOut := .execErr "unused", mysqlOut := .execErr "unused",
    openRes := .dbError "unused", closeRes := .ok }

/-! Helper lemmas. -/

theorem status_liveDB (t : DBType) : status (liveDB t) = true := by
  cases t <;> rfl

theorem runSql_liveDB (t : DBType) (one commit kill : Bool) (env : ExecEnv) :
    runSql (liveDB t) one commit kill env =
      runSqlConnected (liveDB t) one commit kill env := by
  simp [runSql, status_liveDB]

theorem finishRun_fst_false (results : List Row) (db : DB) :
    (finishRun false results db).1 = .ok (.rows results) := rfl

theorem dictInsert_of_not_mem (d : Row) (k : String) (v : Value)
    (h : k ∉ keysOf d) : dictInsert d k v = d ++ [(k, v)] := by
  induction d with
  | nil => rfl
  | cons p rest ih =>
    obtain ⟨k', v'⟩ := p
    simp only [keysOf, List.map_cons, List.mem_cons, not_or] at h
    have hne : ¬ k' = k := fun hh => h.1 hh.symm
    simp only [dictInsert, if_neg hne, List.cons_append]
    exact congrArg _ (ih (by simpa [keysOf] using h.2))

theorem foldl_dictInsert_of_nodup (l : List (String × Value)) :
    ∀ d : Row, (∀ kv ∈ l, kv.1 ∉ keysOf d) → (l.map Prod.fst).Nodup →
      l.foldl (fun d kv => dictInsert d kv.1 kv.2) d = d ++ l := by
  induction l with
  | nil => intro d _ _; simp
  | cons kv rest ih =>
    intro d hdisj hnd
    simp only [List.map_cons, List.nodup_cons] at hnd
    have h1 : dictInsert d kv.1 kv.2 = d ++ [kv] :=
      dictInsert_of_not_mem d kv.1 kv.2 (hdisj kv (List.mem_cons_self kv rest))
    have h2 : ∀ kv' ∈ rest, kv'.1 ∉ keysOf (d ++ [kv]) := by
      intro kv' hmem
      simp only [keysOf, List.map_append, List.mem_append, List.map_cons,
        List.map_nil, List.mem_singleton, not_or]
      refine ⟨hdisj kv' (List.mem_cons_of_mem kv hmem), ?_⟩
      intro hk
      exact hnd.1 (hk ▸ List.mem_map_of_mem Prod.fst hmem)
    calc (kv :: rest).foldl (fun d kv => dictInsert d kv.1 kv.2) d
        = rest.foldl (fun d kv => dictInsert d kv.1 kv.2) (d ++ [kv]) := by
          simp [List.foldl_cons, h1]
      _ = (d ++ [kv]) ++ rest := ih (d ++ [kv]) h2 hnd.2
      _ = d ++ (kv :: rest) := by simp

theorem map_fst_zip_sublist (ks : List String) (vs : List Value) :
    ((ks.zip vs).map Prod.fst).Sublist ks := by
  induction ks generalizing vs with
  | nil => simp
  | cons k rest ih =>
    cases vs with
    | nil => simp
    | cons v vrest =>
      simpa [List.zip_cons_cons] using List.Sublist.cons₂ k (ih vrest)

theorem dictOfZip_eq_zip (ks : List String) (vs : List Value)
    (h : ks.Nodup) : dictOfZip ks vs = ks.zip vs := by
  have hnd : ((ks.zip vs).map Prod.fst).Nodup :=
    h.sublist (map_fst_zip_sublist ks vs)
  simpa [dictOfZip] using
    foldl_dictInsert_of_nodup (ks.zip vs) [] (by simp [keysOf]) hnd

theorem zip_fst_snd (r : Row) : (r.map Prod.fst).zip (r.map Prod.snd) = r := by
  induction r with
  | nil => rfl
  | cons p rest ih => simp [ih]

theorem dictOfZip_self (r : Row) (h : (keysOf r).Nodup) :
    dictOfZip (r.map Prod.fst) (r.map Prod.snd) = r :=
  (dictOfZip_eq_zip (r.map Prod.fst) (r.map Prod.snd) h).trans (zip_fst_snd r)

/-! Claim theorems. -/

/-- C1: for every backend type in {Oracle, SqlServer, PostgreSQL, MySQL},
calling `runSql` on a non-row-producing statement that affects `k` rows
(Oracle: `cur.description` is `None`; SQL Server: `fetchall` raises
`OperationalError`; PostgreSQL: the status message / row count test fails;
MySQL: `fetchall` returns no rows) returns exactly one normalized row
`{'Row(s) affected': k}`, where `k` is the cursor-reported row count. -/
theorem c1_affected_count (k : Int) (commit kill : Bool)
    (orows : List (List Value)) (sm : String) (pgrows : List Row)
    (hsm : ¬(sm.take 6 = "SELECT" ∧ k > 0)) :
    (runSql (liveDB .ORACLE) false commit kill
        { baseEnv with oracleOut := .execOk none orows k }).1 =
      .ok (.rows [affectedRow k])
  ∧ (runSql (liveDB .SQL_SERVER) false commit kill
        { baseEnv with mssqlOut := .fetchOperationalError k }).1 =
      .ok (.rows [affectedRow k])
  ∧ (runSql (liveDB .POSTGRESQL) false commit kill
        { baseEnv with pgOut := .execOk sm k pgrows }).1 =
      .ok (.rows [affectedRow k])
  ∧ (runSql (liveDB .MYSQL) false commit kill
        { baseEnv with mysqlOut := .execOk k [] }).1 =
      .ok (.rows [affectedRow k]) := by
  refine ⟨?_, ?_, ?_, ?_⟩ <;>
    · rw [runSql_liveDB]
      simp [runSqlConnected, liveDB, mkDB, liveConn,
        DBType.value, baseEnv, finishRun, if_neg hsm]

/-- Witness for C1 at `k = 3`, an `UPDATE` status message, `kill = true`. -/
theorem c1_affected_count_witness :
    (¬(("UPDATE 3").take 6 = "SELECT" ∧ (3 : Int) > 0))
  ∧ ((runSql (liveDB .ORACLE) false false true
        { baseEnv with oracleOut := .execOk none [] 3 }).1 =
      .ok (.rows [affectedRow 3])
    ∧ (runSql (liveDB .SQL_SERVER) false false true
          { baseEnv with mssqlOut := .fetchOperationalError 3 }).1 =
        .ok (.rows [affectedRow 3])
    ∧ (runSql (liveDB .POSTGRESQL) false false true
          { baseEnv with pgOut := .execOk "UPDATE 3" 3 [] }).1 =
        .ok (.rows [affectedRow 3])
    ∧ (runSql (liveDB .MYSQL) false false true
          { baseEnv with mysqlOut := .execOk 3 [] }).1 =
        .ok (.rows [affectedRow 3])) :=
  ⟨by decide, c1_affected_count 3 false true [] "UPDATE 3" [] (by decide)⟩

/-- C2: on a PostgreSQL connection, `runSql` of a SELECT whose result has
zero rows returns `[{'Row(s) affected': 0}]` and not an empty sequence;
and in general rows are fetched and zipped into mappings exactly when the
status message begins with `SELECT` and the row count is positive,
every other case yielding `[{'Row(s) affected': rowcount}]`. -/
theorem c2_pg_zero_row_select (commit kill : Bool) (sm : String)
    (rows : List Row) (hsm : sm.take 6 = "SELECT") :
    (runSql (liveDB .POSTGRESQL) false commit kill
        { baseEnv with pgOut := .execOk sm 0 rows }).1 =
      .ok (.rows [affectedRow 0])
  ∧ [affectedRow 0] ≠ ([] : List Row)
  ∧ ∀ (sm' : String) (rc : Int) (rows' : List Row),
      (runSql (liveDB .POSTGRESQL) false commit kill
          { baseEnv with pgOut := .execOk sm' rc rows' }).1 =
        .ok (.rows (if sm'.take 6 = "SELECT" ∧ rc > 0 then
            rows'.map (fun r => dictOfZip (r.map Prod.fst) (r.map Prod.snd))
          else [affectedRow rc])) := by
  refine ⟨?_, by simp [affectedRow], ?_⟩
  · rw [runSql_liveDB]
    simp [runSqlConnected, liveDB, mkDB, liveConn,
      DBType.value, baseEnv, finishRun]
  · intro sm' rc rows'
    rw [runSql_liveDB]
    by_cases h : sm'.take 6 = "SELECT" ∧ rc > 0 <;>
      simp [runSqlConnected, liveDB, mkDB, liveConn,
        DBType.value, baseEnv, finishRun, h]

/-- Witness for C2 with the exact status message `SELECT 0`. -/
theorem c2_pg_zero_row_select_witness :
    ("SELECT 0").take 6 = "SELECT"
  ∧ ((runSql (liveDB .POSTGRESQL) false false true
        { baseEnv with pgOut := .execOk "SELECT 0" 0 [] }).1 =
      .ok (.rows [affectedRow 0])
    ∧ [affectedRow 0] ≠ ([] : List Row)
    ∧ ∀ (sm' : String) (rc : Int) (rows' : List Row),
        (runSql (liveDB .POSTGRESQL) false false true
            { baseEnv with pgOut := .execOk sm' rc rows' }).1 =
          .ok (.rows (if sm'.take 6 = "SELECT" ∧ rc > 0 then
              rows'.map (fun r => dictOfZip (r.map Prod.fst) (r.map Prod.snd))
            else [affectedRow rc]))) :=
  ⟨by decide, c2_pg_zero_row_select false true "SELECT 0" [] (by decide)⟩

/-- C3 counterexample: on PostgreSQL, a statement that produces one row
but whose status message does not begin with `SELECT` (here
`INSERT ... RETURNING id`, status message `INSERT 0 1`, one available row
`{id: 7}`) is normalized to the affected-rows fallback, whose key is
`Row(s) affected` and not the column name `id` — so `runSql` on a
row-producing statement does not always return the row-mappings keyed by
the statement's column names. -/
theorem c3_row_producing_counterexample :
    (runSql (liveDB .POSTGRESQL) false false true
        { baseEnv with
            pgOut := .execOk "INSERT 0 1" 1 [[("id", Value.int 7)]] }).1 =
      .ok (.rows [affectedRow 1])
  ∧ keysOf (affectedRow 1) ≠ ["id"] := by
  constructor
  · rw [runSql_liveDB]
    simp only [runSqlConnected, liveDB, mkDB, liveConn, DBType.value,
      baseEnv, finishRun]
    simp [(by decide : ¬("INSERT 0 1".take 6 = "SELECT"))]
  · decide

/-- C3 as amended: for every backend type, `runSql` on a row-producing
statement that yields `N` rows (with pairwise-distinct column names, each
driver row listing exactly those columns, and — on PostgreSQL — a status
message beginning with `SELECT` together with a positive row count, and —
on MySQL — at least one row) returns an ordered sequence of `N`
row-mappings whose keys are exactly the statement's column names in the
cursor's column order. -/
theorem c3_row_producing_amended (commit kill : Bool) (cols : List String)
    (hnd : cols.Nodup)
    (ork : Int) (orows : List (List Value))
    (hol : ∀ args ∈ orows, args.length = cols.length)
    (srows : List Row) (hsk : ∀ r ∈ srows, keysOf r = cols)
    (sm : String) (hsm : sm.take 6 = "SELECT") (rc : Int) (hrc : rc > 0)
    (prows : List Row) (hpk : ∀ r ∈ prows, keysOf r = cols)
    (myk : Int) (myrows : List Row) (hmyk : ∀ r ∈ myrows, keysOf r = cols)
    (hmyne : myrows ≠ []) :
    ((runSql (liveDB .ORACLE) false commit kill
        { baseEnv with oracleOut := .execOk (some cols) orows ork }).1 =
        .ok (.rows (orows.map (fun args => cols.zip args)))
      ∧ (orows.map (fun args => cols.zip args)).length = orows.length
      ∧ ∀ r ∈ orows.map (fun args => cols.zip args), keysOf r = cols)
  ∧ ((runSql (liveDB .SQL_SERVER) false commit kill
        { baseEnv with mssqlOut := .fetchRows srows }).1 = .ok (.rows srows)
      ∧ ∀ r ∈ srows, keysOf r = cols)
  ∧ ((runSql (liveDB .POSTGRESQL) false commit kill
        { baseEnv with pgOut := .execOk sm rc prows }).1 = .ok (.rows prows)
      ∧ ∀ r ∈ prows, keysOf r = cols)
  ∧ ((runSql (liveDB .MYSQL) false commit kill
        { baseEnv with mysqlOut := .execOk myk myrows }).1 =
        .ok (.rows myrows)
      ∧ ∀ r ∈ myrows, keysOf r = cols) := by
  refine ⟨⟨?_, by simp, ?_⟩, ⟨?_, hsk⟩, ⟨?_, hpk⟩, ⟨?_, hmyk⟩⟩
  · rw [runSql_liveDB]
    simp only [runSqlConnected, liveDB, mkDB, liveConn, DBType.value,
      baseEnv, finishRun]
    have : orows.map (fun args => dictOfZip cols args) =
        orows.map (fun args => cols.zip args) :=
      List.map_congr_left (fun args _ => dictOfZip_eq_zip cols args hnd)
    simp [this]
  · intro r hr
    simp only [List.mem_map] at hr
    obtain ⟨args, hargs, rfl⟩ := hr
    simpa [keysOf] using List.map_fst_zip cols args (le_of_eq (hol args hargs).symm)
  · rw [runSql_liveDB]
    simp [runSqlConnected, liveDB, mkDB, liveConn, DBType.value, baseEnv,
      finishRun]
  · rw [runSql_liveDB]
    have : prows.map (fun r => dictOfZip (r.map Prod.fst) (r.map Prod.snd)) =
        prows :=
      (List.map_congr_left (fun r hr => dictOfZip_self r (hpk r hr ▸ hnd))).trans
        (List.map_id' prows)
    simp [runSqlConnected, liveDB, mkDB, liveConn, DBType.value, baseEnv,
      finishRun, hsm, hrc, this]
  · rw [runSql_liveDB]
    simp [runSqlConnected, liveDB, mkDB, liveConn, DBType.value, baseEnv,
      finishRun, hmyne]

/-- Witness for the amended C3 with column `id` and one row `{id: 7}` per
backend. -/
theorem c3_row_producing_amended_witness :
    ((runSql (liveDB .ORACLE) false false true
        { baseEnv with
            oracleOut := .execOk (some ["id"]) [[Value.int 7]] (-1) }).1 =
        .ok (.rows ([[Value.int 7]].map (fun args => ["id"].zip args)))
      ∧ ([[Value.int 7]].map (fun args => ["id"].zip args)).length =
          [[Value.int 7]].length
      ∧ ∀ r ∈ [[Value.int 7]].map (fun args => ["id"].zip args),
          keysOf r = ["id"])
  ∧ ((runSql (liveDB .SQL_SERVER) false false true
        { baseEnv with mssqlOut := .fetchRows [[("id", Value.int 7)]] }).1 =
        .ok (.rows [[("id", Value.int 7)]])
      ∧ ∀ r ∈ ([[("id", Value.int 7)]] : List Row), keysOf r = ["id"])
  ∧ ((runSql (liveDB .POSTGRESQL) false false true
        { baseEnv with
            pgOut := .execOk "SELECT 1" 1 [[("id", Value.int 7)]] }).1 =
        .ok (.rows [[("id", Value.int 7)]])
      ∧ ∀ r ∈ ([[("id", Value.int 7)]] : List Row), keysOf r = ["id"])
  ∧ ((runSql (liveDB .MYSQL) false false true
        { baseEnv with mysqlOut := .execOk 1 [[("id", Value.int 7)]] }).1 =
        .ok (.rows [[("id", Value.int 7)]])
      ∧ ∀ r ∈ ([[("id", Value.int 7)]] : List Row), keysOf r = ["id"]) :=
  c3_row_producing_amended false true ["id"] (by decide) (-1) [[Value.int 7]]
    (by decide) [[("id", Value.int 7)]] (by decide) "SELECT 1" (by decide)
    1 (by decide) [[("id", Value.int 7)]] (by decide) 1
    [[("id", Value.int 7)]] (by decide) (by decide)

/-- C4 counterexample: on a connected Oracle dispatcher, `runSql` with
`kill = True` whose statement execution raises a native `DatabaseError`
re-raises at line 260 without reaching the `if kill: self.disconnect()`
at lines 256-257 — afterwards `status` is still true, so the open handle
is leaked on the error exit path. -/
theorem c4_kill_counterexample :
    (runSql (liveDB .ORACLE) false false true
        { baseEnv with
            oracleOut := .execErr "ORA-00942: table or view does not exist" }).1 =
      .error (.dbError "Unable to execute SQL statement using Oracle connection db1")
  ∧ status (runSql (liveDB .ORACLE) false false true
        { baseEnv with
            oracleOut := .execErr "ORA-00942: table or view does not exist" }).2 =
      true := by
  constructor
  · rw [runSql_liveDB]
    simp [runSqlConnected, liveDB, mkDB, liveConn, DBType.value, baseEnv]
  · rw [runSql_liveDB]
    simp [runSqlConnected, liveDB, mkDB, liveConn, DBType.value, baseEnv,
      status]

/-- C4 as amended: for every backend type, `runSql` with `kill = True` on a
connected dispatcher leaves it disconnected (`status` false) after normal
completion, provided the native close succeeds; but when statement
execution raises, the error propagates and the connection handle is left
exactly as it was before execution (not closed). -/
theorem c4_kill_amended (commit : Bool) (t : DBType)
    (desc : Option (List String)) (orows : List (List Value)) (ork : Int)
    (srows : List Row) (sm : String) (rc : Int) (prows : List Row)
    (myk : Int) (myrows : List Row) (m : String) :
    status (runSql (liveDB t) false commit true
        { oracleOut := .execOk desc orows ork, mssqlOut := .fetchRows srows,
          pgOut := .execOk sm rc prows, mysqlOut := .execOk myk myrows,
          openRes := .dbError "unused", closeRes := .ok }).2 = false
  ∧ (runSql (liveDB t) false commit true
        { oracleOut := .execErr m, mssqlOut := .execErr m,
          pgOut := .execErr m, mysqlOut := .execErr m,
          openRes := .dbError "unused", closeRes := .ok }).2.connection =
      (liveDB t).connection := by
  constructor <;>
    · rw [runSql_liveDB]
      cases t <;>
        simp [runSqlConnected, liveDB, mkDB, liveConn, DBType.value,
          finishRun, disconnect, status, closeConn]

/-- C5 counterexample: the error re-raised at line 260 carries only the
generic message naming the connection; the native error's message
(`ORA-00001: ...`) is written to the log instead and is not the raised
message. -/
theorem c5_statement_error_counterexample :
    (runSql (liveDB .ORACLE) false false true
        { baseEnv with
            oracleOut := .execErr "ORA-00001: unique constraint violated" }).1 =
      .error (.dbError "Unable to execute SQL statement using Oracle connection db1")
  ∧ "Unable to execute SQL statement using Oracle connection db1" ≠
      "ORA-00001: unique constraint violated"
  ∧ (runSql (liveDB .ORACLE) false false true
        { baseEnv with
            oracleOut := .execErr "ORA-00001: unique constraint violated" }).2.log =
      ["ORA-00001: unique constraint violated"] := by
  refine ⟨?_, by decide, ?_⟩ <;>
    · rw [runSql_liveDB]
      simp [runSqlConnected, liveDB, mkDB, liveConn, DBType.value, baseEnv]

/-- C5 as amended: for every backend type, a native `DatabaseError` during
statement execution is always re-raised to the caller as a backend
`DatabaseError`, but with the generic message
`Unable to execute SQL statement using <backend> connection <name>`; the
original error's message is logged, not carried in the raised error. -/
theorem c5_statement_error_amended (t : DBType) (m : String)
    (one commit kill : Bool) :
    runSql (liveDB t) one commit kill
      { oracleOut := .execErr m, mssqlOut := .execErr m, pgOut := .execErr m,
        mysqlOut := .execErr m, openRes := .dbError "unused",
        closeRes := .ok } =
    (.error (.dbError ("Unable to execute SQL statement using " ++
        (match t with
          | .ORACLE => "Oracle"
          | .SQL_SERVER => "SQL Server"
          | .POSTGRESQL => "PostgreSQL"
          | .MYSQL => "MySQL") ++ " connection db1")),
      { liveDB t with log := [m] }) := by
  rw [runSql_liveDB]
  cases t <;>
    simp [runSqlConnected, liveDB, mkDB, liveConn, DBType.value]

/-- C6: for every backend type, a backend `DatabaseError` while opening the
native connection inside `connect` is logged and swallowed — `connect`
returns normally rather than raising — and afterwards the connection
handle is `None`, so `status` is false. -/
theorem c6_connect_failure_swallowed (t : DBType) (m nm : String)
    (c0 : Option NativeConn) (lr : Option RunVal) (lg : List String) :
    connect { rdbms := t.value, name := nm, connection := c0,
              lastResult := lr, log := lg } (.dbError m) =
      .ok { rdbms := t.value, name := nm, connection := none,
            lastResult := lr, log := lg ++ [m] }
  ∧ status { rdbms := t.value, name := nm, connection := none,
             lastResult := lr, log := lg ++ [m] } = false := by
  refine ⟨?_, rfl⟩
  cases t <;>
    simp [connect, DBType.value, oracleConnection, sqlServerConnection,
      pgConnection, mySqlConnection]

/-- C7 counterexample: `runSql` with `one = True` on an Oracle `SELECT`
producing zero rows (so the normalized result sequence is empty) fails
with the unguarded `IndexError` from `results[0]` at line 321 — no
dedicated empty-result error exists in the code. -/
theorem c7_one_empty_counterexample :
    (runSql (liveDB .ORACLE) true false true
        { baseEnv with oracleOut := .execOk (some ["X"]) [] 0 }).1 =
      .error .indexError := by
  rw [runSql_liveDB]
  simp [runSqlConnected, liveDB, mkDB, liveConn, DBType.value, baseEnv,
    finishRun]

/-- C7 as amended: `runSql` with `one = True` on an empty normalized result
sequence (a zero-row Oracle `SELECT`, or a SQL Server fetch returning no
rows) raises the unguarded `IndexError` of `results[0]`, not a dedicated
empty-result error. -/
theorem c7_one_empty_amended (commit kill : Bool) (cols : List String)
    (rc : Int) :
    (runSql (liveDB .ORACLE) true commit kill
        { baseEnv with oracleOut := .execOk (some cols) [] rc }).1 =
      .error .indexError
  ∧ (runSql (liveDB .SQL_SERVER) true commit kill
        { baseEnv with mssqlOut := .fetchRows [] }).1 =
      .error .indexError := by
  constructor <;>
    · rw [runSql_liveDB]
      simp [runSqlConnected, liveDB, mkDB, liveConn, DBType.value, baseEnv,
        finishRun]

/-- C8: `status` returns false whenever no connection object exists —
for every rdbms string, without consulting any probe data — and returns
false rather than throwing whenever the backend probe reports not-alive:
Oracle unhealthy or a probe `DatabaseError` (caught and logged), SQL Server
not-connected or an `InterfaceError` (caught), PostgreSQL closed, MySQL
`open != 1`. -/
theorem c8_status_false_safe (rdbms nm : String) (lr : Option RunVal)
    (lg : List String) (m : String) (n : Nat) (hn : n ≠ 1) :
    status { rdbms := rdbms, name := nm, connection := none,
             lastResult := lr, log := lg } = false
  ∧ status (mkDB .ORACLE (some (.oracle .unhealthy))) = false
  ∧ status (mkDB .ORACLE (some (.oracle (.raiseDbError m)))) = false
  ∧ status (mkDB .SQL_SERVER (some (.mssql .notConnected))) = false
  ∧ status (mkDB .SQL_SERVER (some (.mssql .raiseInterfaceError))) = false
  ∧ status (mkDB .POSTGRESQL (some (.pg true))) = false
  ∧ status (mkDB .MYSQL (some (.mysql n))) = false := by
  refine ⟨rfl, by decide, rfl, by decide, rfl, by decide, ?_⟩
  simp [status, mkDB, DBType.value, hn]

/-- Witness for C8 at `open = 0` and a concrete probe error message. -/
theorem c8_status_false_safe_witness :
    status { rdbms := "no-such-backend", name := "db1", connection := none,
             lastResult := none, log := [] } = false
  ∧ status (mkDB .ORACLE (some (.oracle .unhealthy))) = false
  ∧ status (mkDB .ORACLE (some (.oracle (.raiseDbError "DPY-1001")))) = false
  ∧ status (mkDB .SQL_SERVER (some (.mssql .notConnected))) = false
  ∧ status (mkDB .SQL_SERVER (some (.mssql .raiseInterfaceError))) = false
  ∧ status (mkDB .POSTGRESQL (some (.pg true))) = false
  ∧ status (mkDB .MYSQL (some (.mysql 0))) = false :=
  c8_status_false_safe "no-such-backend" "db1" none [] "DPY-1001" 0
    (by decide)

/-- C9: `runSql` invokes `connect` to (re)establish the connection exactly
when `status` is false — the statement then runs against the state
`connect` produced — and when `status` is true no connect happens: the
statement runs against the unchanged state. -/
theorem c9_auto_reconnect (db : DB) (one commit kill : Bool)
    (env : ExecEnv) :
    (status db = false →
      runSql db one commit kill env =
        match connect db env.openRes with
        | .error m => (.error (.valueError m), db)
        | .ok db1 => runSqlConnected db1 one commit kill env)
  ∧ (status db = true →
      runSql db one commit kill env =
        runSqlConnected db one commit kill env) := by
  constructor
  · intro h
    simp [runSql, h]
  · intro h
    simp [runSql, h]

/-- Witness for C9: a disconnected Oracle state reconnects through
`connect`; a connected one does not. -/
theorem c9_auto_reconnect_witness :
    (runSql (mkDB .ORACLE none) false false true baseEnv =
      match connect (mkDB .ORACLE none) baseEnv.openRes with
      | .error m => (.error (.valueError m), mkDB .ORACLE none)
      | .ok db1 => runSqlConnected db1 false false true baseEnv)
  ∧ (runSql (liveDB .ORACLE) false false true baseEnv =
      runSqlConnected (liveDB .ORACLE) false false true baseEnv) :=
  ⟨(c9_auto_reconnect (mkDB .ORACLE none) false false true baseEnv).1
      (by decide),
   (c9_auto_reconnect (liveDB .ORACLE) false false true baseEnv).2
      (by decide)⟩

/-- Lines 319-323 as a lemma: whenever `finishRun` returns a value without
raising, that value has also been stored in `lastResult`. -/
theorem finishRun_ok (one : Bool) (results : List Row) (db : DB)
    (v : RunVal) (h : (finishRun one results db).1 = .ok v) :
    (finishRun one results db).2.lastResult = some v := by
  cases one with
  | false =>
    simp [finishRun] at h ⊢
    exact h
  | true =>
    cases results with
    | nil => simp [finishRun] at h
    | cons r rest =>
      simp [finishRun] at h ⊢
      exact h

/-- C10: after every successful `runSql` call the stored `lastResult`
equals exactly the value returned to the caller; with `one = True` the
post-reduction first row is what is stored (not the pre-reduction
sequence), and with `one = False` the full normalized sequence is
stored. -/
theorem c10_last_result :
    (∀ (db : DB) (one commit kill : Bool) (env : ExecEnv) (v : RunVal),
        (runSql db one commit kill env).1 = .ok v →
        (runSql db one commit kill env).2.lastResult = some v)
  ∧ (∀ (r : Row) (rest : List Row) (db : DB),
        finishRun true (r :: rest) db =
          (.ok (.single r), { db with lastResult := some (.single r) }))
  ∧ (∀ (results : List Row) (db : DB),
        finishRun false results db =
          (.ok (.rows results), { db with lastResult := some (.rows results) })) := by
  refine ⟨?_, fun r rest db => rfl, fun results db => rfl⟩
  intro db one commit kill env v h
  simp only [runSql] at h ⊢
  revert h
  split
  · intro h
    simp at h
  · intro h
    revert h
    simp only [runSqlConnected]
    repeat' split
    all_goals intro h
    all_goals first
      | exact finishRun_ok _ _ _ _ h
      | simp at h

/-- Witness for C10: a concrete successful call stores what it returns,
for both values of `one`. -/
theorem c10_last_result_witness :
    (runSql (liveDB .ORACLE) false false true
        { baseEnv with oracleOut := .execOk none [] 5 }).2.lastResult =
      some (.rows [affectedRow 5])
  ∧ (runSql (liveDB .ORACLE) true false true
        { baseEnv with oracleOut := .execOk none [] 5 }).2.lastResult =
      some (.single (affectedRow 5))
  ∧ finishRun true [affectedRow 5] (liveDB .ORACLE) =
      (.ok (.single (affectedRow 5)),
        { liveDB .ORACLE with lastResult := some (.single (affectedRow 5)) })
  ∧ finishRun false [affectedRow 5] (liveDB .ORACLE) =
      (.ok (.rows [affectedRow 5]),
        { liveDB .ORACLE with lastResult := some (.rows [affectedRow 5]) }) :=
  ⟨c10_last_result.1 (liveDB .ORACLE) false false true
      { baseEnv with oracleOut := .execOk none [] 5 }
      (.rows [affectedRow 5]) rfl,
   c10_last_result.1 (liveDB .ORACLE) true false true
      { baseEnv with oracleOut := .execOk none [] 5 }
      (.single (affectedRow 5)) rfl,
   c10_last_result.2.1 (affectedRow 5) [] (liveDB .ORACLE),
   c10_last_result.2.2 [affectedRow 5] (liveDB .ORACLE)⟩

end DBConnectModel
